import Mathlib

/-!
Shallow embedding of the RAG assembly pipeline of the `daoxuanlc` AI-editor
repository, and proofs about it.

The embedded code comes from:
  * `classifiers.py`          — `TextTypeClassifier.classify`
  * `preference_manager.py`   — `UserPreferenceManager.analyze_edits` / `get_preferences`
  * `db_manager.py`           — `DatabaseManager.save_preference` / `get_preferences` /
                                `analyze_edits`
  * `vector_manager.py`       — `VectorStoreManager.load_vector_store` /
                                `search_similar_documents` / `save_vector_store`
  * `ai_editor.py`            — `generate_text`'s `retrieve_docs` / `enhance_context`,
                                the streaming chunk loop, `record_user_edit`
  * `app.py`                  — `fetch_url` and the URL-context assembly of
                                `generate_with_context`

External collaborators (the LLM, the embedding backend, HTML text extraction,
JSON serialisation) are passed in as function parameters; fallible external
calls are modelled with `Except`, exceptions that the Python code catches are
turned into the value the handler produces.
-/

set_option linter.unusedVariables false

namespace AIEditor

/-! ## Preference store (`db_manager.py`, `editor/models.py`) -/

/-- One row of the `UserPreference` table: `(user_id, text_type,
preference_key, preference_value)`; timestamps are irrelevant to the claims. -/
structure PreferenceRecord where
  user_id : String
  text_type : String
  preference_key : String
  preference_value : String
deriving DecidableEq

/-- `DatabaseManager.save_preference`: appends one `UserPreference` row.
The table is modelled as the list of rows in insertion order. -/
def save_preference (st : List PreferenceRecord)
    (user_id text_type preference_key preference_value : String) :
    List PreferenceRecord :=
  st ++ [⟨user_id, text_type, preference_key, preference_value⟩]

/-- `DatabaseManager.get_preferences`: the `preference_value` of every row
matching `(user_id, text_type)`, in storage order. -/
def get_preferences (st : List PreferenceRecord) (user_id text_type : String) :
    List String :=
  (st.filter (fun r => r.user_id == user_id && r.text_type == text_type)).map
    (fun r => r.preference_value)

/-- `UserPreferenceManager.analyze_edits`.  `summarize` is the LLM summarisation
chain (`summarize_chain.invoke`), passed in as an external function.  Returns
the new table state together with the number of LLM calls made. -/
def analyze_edits (summarize : String → String → String)
    (st : List PreferenceRecord) (original_text edited_text : String)
    (text_type : String) : List PreferenceRecord × Nat :=
  if original_text = edited_text then (st, 0)
  else
    let preference := summarize original_text edited_text
    let st1 := save_preference st "default" text_type "llm_analysis" preference
    let st2 :=
      if text_type ≠ "general" then
        save_preference st1 "default" "general" "llm_analysis" preference
      else st1
    (st2, 1)

/-- `DatabaseManager.analyze_edits`.  `json_dump` models
`json.dumps({"original": ..., "edited": ...}, ensure_ascii=False)`. -/
def db_analyze_edits (json_dump : String → String → String)
    (st : List PreferenceRecord)
    (user_id original_text edited_text text_type preference_key : String) :
    List PreferenceRecord :=
  if original_text = edited_text then st
  else save_preference st user_id text_type preference_key
    (json_dump original_text edited_text)

/-- `AIEditorAssistant.record_user_edit`: calls
`preference_manager.analyze_edits(original_text, edited_text)` — the third
parameter (`user_id`, which the `/record-edit` route fills with the request's
`text_type`) is never forwarded, so `analyze_edits` runs with its default
`text_type = "general"`. -/
def record_user_edit (summarize : String → String → String)
    (st : List PreferenceRecord) (original_text edited_text : String)
    (user_id : Option String) : List PreferenceRecord × Nat :=
  analyze_edits summarize st original_text edited_text "general"

/-! ## Text classifier (`classifiers.py`) -/

/-- The keys of the `TEXT_TYPES` dict of `classifiers.py`. -/
def TEXT_TYPES : List String := ["academic", "technical", "creative", "business"]

/-- Python's `str.strip()`: drop whitespace from both ends (character-level
model; the labels the code compares against are ASCII). -/
def py_strip (s : String) : String :=
  ⟨((s.data.dropWhile Char.isWhitespace).reverse.dropWhile Char.isWhitespace).reverse⟩

/-- Python's `str.lower()` (character-level model). -/
def py_lower (s : String) : String :=
  ⟨s.data.map Char.toLower⟩

/-- `TextTypeClassifier.classify`, as a function of the raw string the LLM
chain returned: `result.strip().lower()`, membership test against
`TEXT_TYPES`, fallback `"creative"`. -/
def classify (llm_answer : String) : String :=
  let result := py_lower (py_strip llm_answer)
  if TEXT_TYPES.contains result then result else "creative"

/-! ## Vector store manager (`vector_manager.py`) -/

/-- A langchain `Document`: `page_content` plus a string-keyed metadata dict. -/
structure FAISSDocument where
  page_content : String
  metadata : List (String × String)
deriving DecidableEq

/-- An in-memory FAISS index, abstracted to its query behaviour.
`similarity_search_with_score` may raise (modelled by `Except`); on success it
returns `(document, score)` pairs. -/
structure FAISSIndex where
  similarity_search_with_score : String → Nat → Except String (List (FAISSDocument × ℚ))

/-- What `FAISS.load_local` finds on disk for one category: the directory is
absent, loading raises, or a loadable index. -/
inductive DiskState where
  | missing
  | loadError
  | ok (idx : FAISSIndex)

/-- `VectorStoreManager` state: the in-memory cache `self.vector_stores`
(a dict, modelled as an association list read through `List.lookup`) and the
on-disk `vector_stores/` directory. -/
structure VMState where
  vector_stores : List (String × FAISSIndex)
  disk : String → DiskState

/-- `VectorStoreManager.load_vector_store`: cache hit short-circuits; otherwise
load from disk and cache, returning `none` when the path is absent or
`FAISS.load_local` raises (the exception is caught and `None` returned). -/
def load_vector_store (st : VMState) (text_type : String) :
    Option FAISSIndex × VMState :=
  match st.vector_stores.lookup text_type with
  | some vs => (some vs, st)
  | none =>
    match st.disk text_type with
    | .ok vs => (some vs, ⟨(text_type, vs) :: st.vector_stores, st.disk⟩)
    | .missing => (none, st)
    | .loadError => (none, st)

/-- The dict `{'content': ..., 'metadata': ..., 'score': ...}` that
`search_similar_documents` builds for each result. -/
structure SearchHit where
  content : String
  metadata : List (String × String)
  score : ℚ
deriving DecidableEq

/-- `VectorStoreManager.search_similar_documents`: empty query short-circuits
to `[]`; a missing index gives `[]`; a raising similarity search is caught and
gives `[]`.  The function is total — no error escapes to the caller. -/
def search_similar_documents (st : VMState) (text_type query : String)
    (k : Nat) : List SearchHit × VMState :=
  if query = "" then ([], st)
  else
    match load_vector_store st text_type with
    | (none, st') => ([], st')
    | (some vs, st') =>
      match vs.similarity_search_with_score query k with
      | .ok results => (results.map (fun r => ⟨r.1.page_content, r.1.metadata, r.2⟩), st')
      | .error _ => ([], st')

/-- `VectorStoreManager.save_vector_store`: `FAISS.from_documents` (the
embedding call, fallible) then `save_local` (fallible), and only after both
succeed the in-memory cache and disk are updated.  Any exception is caught and
`False` returned with everything untouched. -/
def save_vector_store (st : VMState) (text_type : String)
    (from_documents : Except String FAISSIndex)
    (save_local : FAISSIndex → Except String Unit) : Bool × VMState :=
  match from_documents with
  | .error _ => (false, st)
  | .ok vector_store =>
    match save_local vector_store with
    | .error _ => (false, st)
    | .ok _ =>
      (true, ⟨(text_type, vector_store) :: st.vector_stores,
              fun t => if t = text_type then .ok vector_store else st.disk t⟩)

/-! ## Generation pipeline (`ai_editor.py`, `generate_text`) -/

/-- Step 1 of `retrieve_docs`: the combined classification/retrieval query,
`user_text + '\n\n' + prompt if user_text else prompt`. -/
def combined_query (user_text prompt : String) : String :=
  if user_text ≠ "" then user_text ++ "\n\n" ++ prompt else prompt

/-- The relevance filter of `retrieve_docs`:
`[doc for doc in docs if doc.get("score", 0) > 0.7]`. -/
def filter_relevant_docs (docs : List SearchHit) : List SearchHit :=
  docs.filter (fun d => decide ((0.7 : ℚ) < d.score))

/-- The category computed in step 2 of the pipeline: `classify` applied to the
raw answer of the classifier LLM (`classifier_answer`) on the combined query. -/
def classified_category (classifier_answer : String → String)
    (user_text prompt : String) : String :=
  classify (classifier_answer (combined_query user_text prompt))

/-- `retrieve_docs` of `generate_text`: classify the combined query, search the
vector store under the classified category, keep docs scoring above 0.7. -/
def retrieve_docs (st : VMState) (classifier_answer : String → String)
    (user_text prompt : String) (top_k : Nat) : List SearchHit × VMState :=
  let query := combined_query user_text prompt
  let text_type := classify (classifier_answer query)
  let (docs, st') := search_similar_documents st text_type query top_k
  (filter_relevant_docs docs, st')

/-- `enhance_context` of `generate_text`: the ordinal-labelled document context
and the preference strings.  The source calls
`self.preference_manager.get_preferences()` with no argument, so the manager's
default `text_type = "general"` is what reaches the database query for user
`"default"`. -/
def enhance_context (prefStore : List PreferenceRecord) (docs : List SearchHit) :
    String × List String :=
  let context_parts :=
    docs.enum.map (fun p => "相关文档 " ++ toString (p.1 + 1) ++ ": " ++ p.2.content)
  (String.intercalate "\n" context_parts, get_preferences prefStore "default" "general")

/-! ## Streaming chunk handling (`generate_text`, step 5, `stream=True`) -/

/-- A chunk coming back from the streaming LLM, classified by the attribute
sniffing of the source: it has a `content` attribute, else a `text` attribute,
else only its `str()` form. -/
inductive LLMChunk where
  | content (s : String)
  | text (s : String)
  | other (s : String)
deriving DecidableEq

/-- What one loop iteration of the `async for chunk in chain.astream(...)`
body yields: `chunk.content` or `chunk.text` verbatim when the attribute
exists, otherwise `str(chunk)` only if it is non-empty after `strip()`. -/
def emit_chunk : LLMChunk → List String
  | .content s => [s]
  | .text s => [s]
  | .other s => if py_strip s ≠ "" then [s] else []

/-- The whole fragment sequence a streaming `generate_text` call emits for a
given backend chunk sequence. -/
def stream_outputs (chunks : List LLMChunk) : List String :=
  (chunks.map emit_chunk).flatten

/-! ## URL fetching for ephemeral context (`app.py`, `generate_with_context`) -/

/-- Outcome of `session.get(url)`: the request raised, or returned a response
with a status code and a body. -/
inductive FetchOutcome where
  | failure
  | response (status : Nat) (body : String)
deriving DecidableEq

/-- `fetch_url` of `generate_with_context`: a 200 response contributes the
header plus `soup.get_text()` (modelled by the external `get_text`); an
exception is caught and yields `""`; a non-200 response falls through to the
trailing `return ""`. -/
def fetch_url (get_text : String → String) (url : String) :
    FetchOutcome → String
  | .failure => ""
  | .response status body =>
    if status = 200 then "\n=== URL：" ++ url ++ " ===\n" ++ get_text body ++ "\n"
    else ""

/-- `''.join(...)`: concatenation of a list of strings in order. -/
def join_all : List String → String
  | [] => ""
  | s :: rest => s ++ join_all rest

/-- `''.join(url_contexts)` after `asyncio.gather`: the per-URL contributions
concatenated in the order the URLs were supplied. -/
def url_contexts (get_text : String → String)
    (fetches : List (String × FetchOutcome)) : String :=
  join_all (fetches.map (fun p => fetch_url get_text p.1 p.2))

/-! ## Theorems -/

/-- Claim C1: the pipeline's relevance filter keeps exactly the documents whose
similarity score is strictly greater than 0.7, and a document scoring exactly
0.7 is excluded. -/
theorem C1_relevance_filter (docs : List SearchHit) (d : SearchHit) :
    (d ∈ filter_relevant_docs docs ↔ d ∈ docs ∧ (0.7 : ℚ) < d.score) ∧
    (d.score = (0.7 : ℚ) → d ∉ filter_relevant_docs docs) := by
  have hiff : d ∈ filter_relevant_docs docs ↔ d ∈ docs ∧ (0.7 : ℚ) < d.score := by
    simp [filter_relevant_docs, List.mem_filter]
  refine ⟨hiff, fun hs hmem => ?_⟩
  have := (hiff.mp hmem).2
  rw [hs] at this
  exact lt_irrefl _ this

/-- Witness for C1: a document scoring exactly 0.7 is dropped. -/
theorem C1_relevance_filter_witness :
    (⟨"doc", [], (0.7 : ℚ)⟩ : SearchHit) ∉
      filter_relevant_docs [⟨"doc", [], (0.7 : ℚ)⟩] :=
  (C1_relevance_filter [⟨"doc", [], (0.7 : ℚ)⟩] ⟨"doc", [], (0.7 : ℚ)⟩).2 rfl

/-- Counterexample to claim C2: with a preference stored under `"business"`
and the classifier producing `"business"` in step 2, the preference strings
the pipeline assembles are NOT those stored for (default user, classified
category) — `enhance_context` reads the `"general"` bucket instead. -/
theorem C2_counterexample :
    (enhance_context [⟨"default", "business", "llm_analysis", "prefer bullet points"⟩] []).2 ≠
      get_preferences [⟨"default", "business", "llm_analysis", "prefer bullet points"⟩]
        "default" (classified_category (fun _ => "business") "" "写一份商业计划") := by
  decide

/-- Claim C2 (amended): in step 5 the preference strings assembled into the
prompt are those stored for (user `"default"`, category `"general"`),
independent of the category the classifier produced in step 2. -/
theorem C2_preferences_use_general (prefStore : List PreferenceRecord)
    (st : VMState) (classifier_answer : String → String)
    (user_text prompt : String) (top_k : Nat) :
    (enhance_context prefStore
        (retrieve_docs st classifier_answer user_text prompt top_k).1).2 =
      get_preferences prefStore "default" "general" := rfl

/-- Claim C3: `classify` returns the trimmed, lower-cased LLM answer when that
normalized answer is one of the four enumerated types, and the fixed fallback
`"creative"` for every normalized answer outside the set; it never raises (it
is a total function of the answer). -/
theorem C3_classify_fallback (llm_answer : String) :
    (py_lower (py_strip llm_answer) ∈ TEXT_TYPES →
      classify llm_answer = py_lower (py_strip llm_answer)) ∧
    (py_lower (py_strip llm_answer) ∉ TEXT_TYPES →
      classify llm_answer = "creative") := by
  constructor <;> intro h <;> simp [classify, h]

/-- Witness for C3: an in-set answer is normalized and returned; the out-of-set
answer `"nonsense"` falls back to `"creative"`. -/
theorem C3_classify_fallback_witness :
    classify "  Academic\n" = "academic" ∧ classify "nonsense" = "creative" :=
  ⟨((C3_classify_fallback "  Academic\n").1 (by decide)).trans (by decide),
   (C3_classify_fallback "nonsense").2 (by decide)⟩

/-- Claim C4: when `original_text == edited_text`, both `analyze_edits`
implementations create zero new records — the preference table is returned
unchanged — and the LLM summarisation chain is invoked zero times. -/
theorem C4_noop_edit (summarize json_dump : String → String → String)
    (st : List PreferenceRecord)
    (original_text edited_text user_id text_type preference_key : String)
    (h : original_text = edited_text) :
    analyze_edits summarize st original_text edited_text text_type = (st, 0) ∧
    db_analyze_edits json_dump st user_id original_text edited_text
      text_type preference_key = st := by
  subst h
  exact ⟨by simp [analyze_edits], by simp [db_analyze_edits]⟩

/-- Witness for C4: recording an unchanged text leaves a concrete store
untouched and makes no LLM call. -/
theorem C4_noop_edit_witness :
    analyze_edits (fun _ _ => "summary") [] "same" "same" "academic" = ([], 0) ∧
    db_analyze_edits (fun _ _ => "json") [] "u" "same" "same" "academic" "k" = [] :=
  C4_noop_edit (fun _ _ => "summary") (fun _ _ => "json") [] "same" "same"
    "u" "academic" "k" rfl

/-- Counterexample to claim C5: a streamed chunk that exposes an empty
`content` attribute is emitted as the empty string, so not every emitted
fragment is non-empty after trimming. -/
theorem C5_counterexample :
    ¬ ∀ (chunks : List LLMChunk), ∀ s ∈ stream_outputs chunks, py_strip s ≠ "" := by
  intro h
  exact h [LLMChunk.content ""] "" (by decide) rfl

/-- Claim C5 (amended): an emitted fragment that is empty after trimming can
only come from a chunk exposing a `content` or `text` attribute (those are
forwarded verbatim); a chunk with neither attribute is dropped unless its
string form is non-empty after trimming. -/
theorem C5_stream_fragments (chunks : List LLMChunk) (s : String)
    (h : s ∈ stream_outputs chunks) :
    py_strip s ≠ "" ∨ LLMChunk.content s ∈ chunks ∨ LLMChunk.text s ∈ chunks := by
  induction chunks with
  | nil => simp [stream_outputs] at h
  | cons c rest ih =>
    simp only [stream_outputs, List.map_cons, List.flatten_cons,
      List.mem_append] at h
    rcases h with h | h
    · cases c with
      | content t =>
        simp only [emit_chunk, List.mem_singleton] at h
        subst h
        exact Or.inr (Or.inl (List.mem_cons_self _ _))
      | text t =>
        simp only [emit_chunk, List.mem_singleton] at h
        subst h
        exact Or.inr (Or.inr (List.mem_cons_self _ _))
      | other t =>
        simp only [emit_chunk] at h
        by_cases ht : py_strip t ≠ ""
        · rw [if_pos ht, List.mem_singleton] at h
          subst h
          exact Or.inl ht
        · rw [if_neg ht] at h
          exact absurd h (List.not_mem_nil s)
    · rcases ih (by rw [stream_outputs]; exact h) with h' | h' | h'
      · exact Or.inl h'
      · exact Or.inr (Or.inl (List.mem_cons_of_mem _ h'))
      · exact Or.inr (Or.inr (List.mem_cons_of_mem _ h'))

/-- Witness for C5 (amended): the empty fragment emitted for an
empty-`content` chunk indeed traces back to that chunk. -/
theorem C5_stream_fragments_witness :
    py_strip "" ≠ "" ∨ LLMChunk.content "" ∈ [LLMChunk.content ""] ∨
      LLMChunk.text "" ∈ [LLMChunk.content ""] :=
  C5_stream_fragments [LLMChunk.content ""] "" (by decide)

/-- Claim C6: for a category with no stored documents — nothing cached and the
on-disk index absent or failing to load — `search_similar_documents` returns
the empty list; being a total function, it raises nothing. -/
theorem C6_search_empty_category (st : VMState) (text_type query : String)
    (k : Nat) (hcache : st.vector_stores.lookup text_type = none)
    (hdisk : st.disk text_type = .missing ∨ st.disk text_type = .loadError) :
    (search_similar_documents st text_type query k).1 = [] := by
  rw [search_similar_documents]
  by_cases hq : query = ""
  · rw [if_pos hq]
  · rw [if_neg hq]
    rw [load_vector_store, hcache]
    rcases hdisk with hd | hd <;> rw [hd]

/-- Witness for C6: searching `"business"` in a store with empty cache and no
on-disk index yields `[]`. -/
theorem C6_search_empty_category_witness :
    (search_similar_documents ⟨[], fun _ => DiskState.missing⟩
      "business" "quarterly revenue" 5).1 = [] :=
  C6_search_empty_category ⟨[], fun _ => DiskState.missing⟩
    "business" "quarterly revenue" 5 rfl (Or.inl rfl)

/-- Claim C7: for a real edit, `analyze_edits` calls the summarisation backend
exactly once and appends one record under the given category plus a duplicate
with the same value under `"general"` when the category is not `"general"`;
for category `"general"` exactly one record is appended. -/
theorem C7_record_edit (summarize : String → String → String)
    (st : List PreferenceRecord) (original_text edited_text text_type : String)
    (hne : original_text ≠ edited_text) :
    (text_type ≠ "general" →
      analyze_edits summarize st original_text edited_text text_type =
        (st ++ [⟨"default", text_type, "llm_analysis", summarize original_text edited_text⟩,
                ⟨"default", "general", "llm_analysis", summarize original_text edited_text⟩], 1)) ∧
    (text_type = "general" →
      analyze_edits summarize st original_text edited_text text_type =
        (st ++ [⟨"default", "general", "llm_analysis",
                 summarize original_text edited_text⟩], 1)) := by
  constructor <;> intro h <;> simp [analyze_edits, save_preference, hne, h]

/-- Witness for C7: an edit under `"business"` appends the business record and
its `"general"` duplicate, with one LLM call. -/
theorem C7_record_edit_witness :
    analyze_edits (fun _ _ => "likes brevity") [] "draft" "edited" "business" =
      ([⟨"default", "business", "llm_analysis", "likes brevity"⟩,
        ⟨"default", "general", "llm_analysis", "likes brevity"⟩], 1) :=
  (C7_record_edit (fun _ _ => "likes brevity") [] "draft" "edited" "business"
    (by decide)).1 (by decide)

/-- Concatenation distributes over `join_all`. -/
theorem join_all_append (l1 l2 : List String) :
    join_all (l1 ++ l2) = join_all l1 ++ join_all l2 := by
  induction l1 with
  | nil => simp [join_all]
  | cons s rest ih => simp [join_all, ih, String.append_assoc]

/-- Claim C8: in the URL-context assembly, a URL whose fetch raises or returns
a non-200 status contributes the empty string — removing it from the batch
leaves the combined context unchanged, so the other URLs' extracted text still
gets through and the request as a whole never fails (the assembly is total);
a 200 response contributes its extracted text. -/
theorem C8_failed_fetch (get_text : String → String)
    (pre post : List (String × FetchOutcome)) (url : String)
    (outcome : FetchOutcome)
    (h : outcome = .failure ∨
      ∃ status body, status ≠ 200 ∧ outcome = .response status body) :
    fetch_url get_text url outcome = "" ∧
    url_contexts get_text (pre ++ (url, outcome) :: post) =
      url_contexts get_text (pre ++ post) ∧
    (∀ u body, fetch_url get_text u (.response 200 body) =
      "\n=== URL：" ++ u ++ " ===\n" ++ get_text body ++ "\n") := by
  have hfu : fetch_url get_text url outcome = "" := by
    rcases h with rfl | ⟨s, b, hs, rfl⟩
    · rfl
    · simp [fetch_url, hs]
  refine ⟨hfu, ?_, fun u body => by simp [fetch_url]⟩
  simp only [url_contexts, List.map_append, List.map_cons, join_all_append,
    join_all, hfu, String.empty_append]

/-- Witness for C8: one failing URL among three contributes nothing; the other
two still contribute. -/
theorem C8_failed_fetch_witness :
    fetch_url (fun b => b) "http://b.example" FetchOutcome.failure = "" ∧
    url_contexts (fun b => b)
        ([("http://a.example", FetchOutcome.response 200 "alpha")] ++
          ("http://b.example", FetchOutcome.failure) ::
          [("http://c.example", FetchOutcome.response 200 "gamma")]) =
      url_contexts (fun b => b)
        ([("http://a.example", FetchOutcome.response 200 "alpha")] ++
          [("http://c.example", FetchOutcome.response 200 "gamma")]) ∧
    (∀ u body, fetch_url (fun b => b) u (FetchOutcome.response 200 body) =
      "\n=== URL：" ++ u ++ " ===\n" ++ body ++ "\n") :=
  C8_failed_fetch (fun b => b)
    [("http://a.example", FetchOutcome.response 200 "alpha")]
    [("http://c.example", FetchOutcome.response 200 "gamma")]
    "http://b.example" FetchOutcome.failure (Or.inl rfl)

/-- Claim C9: `record_user_edit` ignores its third argument (the slot the
`/record-edit` route fills with the request's `text_type`) — it always runs
`analyze_edits` with the default category — so any record it creates carries
`user_id = "default"` and `text_type = "general"`. -/
theorem C9_record_user_edit_ignores_type (summarize : String → String → String)
    (st : List PreferenceRecord) (original_text edited_text : String)
    (t t' : Option String) :
    record_user_edit summarize st original_text edited_text t =
      analyze_edits summarize st original_text edited_text "general" ∧
    record_user_edit summarize st original_text edited_text t =
      record_user_edit summarize st original_text edited_text t' ∧
    ((record_user_edit summarize st original_text edited_text t).1 = st ∨
      (record_user_edit summarize st original_text edited_text t).1 =
        st ++ [⟨"default", "general", "llm_analysis",
                summarize original_text edited_text⟩]) := by
  refine ⟨rfl, rfl, ?_⟩
  by_cases h : original_text = edited_text <;>
    simp [record_user_edit, analyze_edits, save_preference, h]

/-- Claim C10: when building or persisting the index fails,
`save_vector_store` returns `false` without raising and leaves the whole
manager state — in particular the cached index — unchanged, so a subsequent
search observes exactly what it would have observed before the failed call. -/
theorem C10_save_failure_preserves_state (st : VMState) (text_type : String)
    (from_documents : Except String FAISSIndex)
    (save_local : FAISSIndex → Except String Unit)
    (h : (∃ e, from_documents = .error e) ∨
      (∃ vs e, from_documents = .ok vs ∧ save_local vs = .error e)) :
    save_vector_store st text_type from_documents save_local = (false, st) ∧
    (∀ query k,
      search_similar_documents
        (save_vector_store st text_type from_documents save_local).2
        text_type query k =
      search_similar_documents st text_type query k) := by
  have hmain : save_vector_store st text_type from_documents save_local = (false, st) := by
    rcases h with ⟨e, he⟩ | ⟨vs, e, hvs, he⟩
    · subst he; rfl
    · subst hvs
      simp only [save_vector_store, he]
  exact ⟨hmain, fun query k => by rw [hmain]⟩

/-- Witness for C10: a failed embedding call leaves an empty store empty and
returns `false`. -/
theorem C10_save_failure_preserves_state_witness :
    save_vector_store ⟨[], fun _ => DiskState.missing⟩ "technical"
        (Except.error "embedding backend down") (fun _ => Except.ok ()) =
      (false, ⟨[], fun _ => DiskState.missing⟩) ∧
    (∀ query k,
      search_similar_documents
        (save_vector_store ⟨[], fun _ => DiskState.missing⟩ "technical"
          (Except.error "embedding backend down") (fun _ => Except.ok ())).2
        "technical" query k =
      search_similar_documents ⟨[], fun _ => DiskState.missing⟩
        "technical" query k) :=
  C10_save_failure_preserves_state ⟨[], fun _ => DiskState.missing⟩ "technical"
    (Except.error "embedding backend down") (fun _ => Except.ok ())
    (Or.inl ⟨"embedding backend down", rfl⟩)

end AIEditor
